import Mathlib

/-
Shallow embedding of the smartcab grid-world environment from
src/Practice/Practice_trading_myself/environment_trading.py.

Python values are embedded as follows:
  - an action value (Python None or one of the strings forward, left, right,
    or an arbitrary other string submitted by a caller) is an Option String,
    with Option.none standing for Python None;
  - a heading is a pair of integers, as in the source tuples;
  - intersection coordinates are pairs of integers;
  - rewards are rationals; the random base term drawn uniformly from the
    interval from -1 to 1 and the deadline-pressure penalty computed with
    math.pow are real-valued inputs of the step, so they appear as rational
    parameters of the embedded act and the theorems quantify over them;
  - the two assert statements at the top of Environment.act, which fail with
    the messages Unknown agent! and Invalid action!, are embedded as the
    error values unknownAgent and invalidAction; a failed Python attribute
    lookup is embedded as attributeError with the attribute name.

The Environment class in the source defines no method named sense, although
Environment.act calls self.sense(agent) at line 110.  The record that call
would return is therefore modelled from the spec (fields oncoming, left,
right, each an action or None); actOk below takes that record as a
parameter.  actMethodCall additionally embeds the two failure points of the
executed path: the dict subscript self.intersections[location] at line 109,
which raises a TypeError when the stored location value is a Python list
(create_agent at line 87 stores list(...) for every agent it registers),
and the dynamic attribute lookup of self.sense at line 110, over the list
of method names the class actually defines.
-/

/-- The error outcomes of a call to Environment.act. -/
inductive PyError where
  | unknownAgent : PyError
  | invalidAction : PyError
  | attributeError : String → PyError
  | typeError : String → PyError
deriving DecidableEq, Repr

/-- TrafficLight (environment_trading.py lines 6-22): state True means the
north-south axis is open, False means east-west; period is the flip period;
last_updated is the tick of the last flip. -/
structure TrafficLight where
  state : Bool
  period : ℤ
  last_updated : ℤ
deriving DecidableEq, Repr

/-- TrafficLight.reset (line 16): sets last_updated to 0. -/
def TrafficLight.reset (l : TrafficLight) : TrafficLight :=
  { l with last_updated := 0 }

/-- TrafficLight.update (lines 19-22): flips the state and records the tick
when at least period ticks have elapsed since the last flip. -/
def TrafficLight.update (l : TrafficLight) (t : ℤ) : TrafficLight :=
  if t - l.last_updated ≥ l.period then
    { l with state := !l.state, last_updated := t }
  else
    l

/-- The list of valid actions (line 28): None, forward, left, right. -/
def valid_actions : List (Option String) :=
  [none, some "forward", some "left", some "right"]

/-- Membership of a submitted action in valid_actions, as a Boolean. -/
def validAction (a : Option String) : Bool :=
  valid_actions.contains a

/-- The four valid headings (line 30): E, N, W, S in screen coordinates. -/
def valid_headings : List (ℤ × ℤ) :=
  [(1, 0), (0, -1), (-1, 0), (0, 1)]

/-- The grid bounds tuple (line 44): (1, 2, grid_size.1, grid_size.2 + 1),
stored with named fields. -/
structure Bounds where
  x0 : ℤ
  y0 : ℤ
  x1 : ℤ
  y1 : ℤ
deriving DecidableEq, Repr

/-- Bounds built from a grid size as in line 44 of the source. -/
def mkBounds (grid_size : ℤ × ℤ) : Bounds :=
  ⟨1, 2, grid_size.1, grid_size.2 + 1⟩

/-- Per-agent state (agent_states entries plus the primary-agent fields
destination and deadline). -/
structure AgentState where
  location : ℤ × ℤ
  heading : ℤ × ℤ
  deadline : ℤ
  destination : ℤ × ℤ
deriving DecidableEq, Repr

/-- Modelled from the spec: the record returned by the missing
Environment.sense method, giving the intended action of any other agent at
the same intersection in each relative position, or None. -/
structure SenseInputs where
  oncoming : Option String
  left : Option String
  right : Option String
deriving DecidableEq, Repr

/-- The environment fields that Environment.act reads or writes: the road
bounds, the light state of each intersection, and the trial flags. -/
structure Env where
  bounds : Bounds
  lightState : ℤ × ℤ → Bool
  done : Bool
  success : Bool
  trialSuccess : Bool

/-- A Python value stored under the location key of an agent state dict and
used at line 109 as a dict key: a tuple of coordinates is hashable, a list
of coordinates is not. -/
inductive LocKey where
  | tuple : ℤ × ℤ → LocKey
  | list : ℤ × ℤ → LocKey
deriving DecidableEq, Repr

/-- The per-call inputs of Environment.act: whether the agent is a key of
agent_states, the Python value stored under the location key of its state
dict (whose coordinates AgentState.location abstracts), the submitted
action, the sensed inputs, the waypoint returned by
agent.get_next_waypoint(), whether the agent is the primary agent, the
random base reward drawn at line 123, and the deadline-pressure penalty
computed at lines 127-135. -/
structure ActArgs where
  registered : Bool
  locationKey : LocKey
  action : Option String
  inputs : SenseInputs
  waypoint : Option String
  isPrimary : Bool
  randBase : ℚ
  penalty : ℚ

/-- Light classification at line 109: green when the signal is NS-open and
the heading has a vertical component, or EW-open and the heading has a
horizontal component; red otherwise. -/
def lightAt (signalNSOpen : Bool) (heading : ℤ × ℤ) : String :=
  if (signalNSOpen = true ∧ heading.2 ≠ 0) ∨ (signalNSOpen = false ∧ heading.1 ≠ 0) then
    "green"
  else
    "red"

/-- Violation classification and heading update of lines 137-168, returning
the violation kind together with the (possibly rotated) heading local
variable. -/
def adjudicate (action : Option String) (light : String) (inputs : SenseInputs)
    (heading : ℤ × ℤ) : ℕ × (ℤ × ℤ) :=
  if action = some "forward" then
    if light ≠ "green" then
      if inputs.left = some "forward" ∨ inputs.right = some "forward" then
        (4, heading)
      else
        (2, heading)
    else
      (0, heading)
  else if action = some "left" then
    if light ≠ "green" then
      if inputs.left = some "forward" ∨ inputs.right = some "forward" then
        (4, heading)
      else if inputs.oncoming = some "right" then
        (4, heading)
      else
        (2, heading)
    else
      if inputs.oncoming = some "right" ∨ inputs.oncoming = some "forward" then
        (3, heading)
      else
        (0, (heading.2, -heading.1))
  else if action = some "right" then
    if light ≠ "green" ∧ inputs.left = some "forward" then
      (3, heading)
    else
      (0, (-heading.2, heading.1))
  else
    if light = "green" ∧ inputs.oncoming ≠ some "left" then
      (1, heading)
    else
      (0, heading)

/-- The reward increment of lines 171-195: for a legal move, a waypoint
match or a correct wait at a red light earns 2 minus the penalty and any
other legal move earns 1 minus the penalty; otherwise the fixed penalty of
the violation kind. -/
def rewardDelta (violation : ℕ) (action waypoint : Option String) (light : String)
    (penalty : ℚ) : ℚ :=
  if violation = 0 then
    if action = waypoint then 2 - penalty
    else if action = none ∧ light ≠ "green" then 2 - penalty
    else 1 - penalty
  else if violation = 1 then -5
  else if violation = 2 then -10
  else if violation = 3 then -20
  else if violation = 4 then -40
  else 0

/-- The wrap-around move of lines 182-183: add the heading and reduce each
coordinate modulo the grid extent of its axis, back into the bounds. -/
def wrapMove (b : Bounds) (location heading : ℤ × ℤ) : ℤ × ℤ :=
  ((location.1 + heading.1 - b.x0) % (b.x1 - b.x0 + 1) + b.x0,
   (location.2 + heading.2 - b.y0) % (b.y1 - b.y0 + 1) + b.y0)

/-- The result of a successful Environment.act call: the updated agent
state, the returned reward, the violation kind, and the updated trial
flags. -/
structure ActOutcome where
  agent : AgentState
  reward : ℚ
  violation : ℕ
  done : Bool
  success : Bool
  trialSuccess : Bool
deriving DecidableEq, Repr

/-- The light string computed at line 109 for the agent at its current
intersection. -/
def actLight (env : Env) (st : AgentState) : String :=
  lightAt (env.lightState st.location) st.heading

/-- The violation kind classified by lines 137-168. -/
def actViolation (env : Env) (st : AgentState) (a : ActArgs) : ℕ :=
  (adjudicate a.action (actLight env st) a.inputs st.heading).1

/-- The heading local variable after lines 137-168, rotated only on a legal
left or right turn. -/
def actHeading (env : Env) (st : AgentState) (a : ActArgs) : ℤ × ℤ :=
  (adjudicate a.action (actLight env st) a.inputs st.heading).2

/-- The returned reward: the random base of line 123 plus the increment of
lines 171-195. -/
def actReward (env : Env) (st : AgentState) (a : ActArgs) : ℚ :=
  a.randBase + rewardDelta (actViolation env st a) a.action a.waypoint (actLight env st) a.penalty

/-- The agent state after the move step of lines 180-185: on a legal
non-None action the wrapped location and the heading are committed,
otherwise the state is untouched. -/
def actState (env : Env) (st : AgentState) (a : ActArgs) : AgentState :=
  if actViolation env st a = 0 ∧ a.action ≠ none then
    { st with location := wrapMove env.bounds st.location (actHeading env st a),
              heading := actHeading env st a }
  else
    st

/-- The body of Environment.act after the asserts (lines 106-231), with the
record of the missing sense method taken from the arguments: classify the
violation, compute the reward, move the agent on a legal non-None action,
and run the goal check of lines 197-206 for the primary agent. -/
def actOk (env : Env) (st : AgentState) (a : ActArgs) : ActOutcome :=
  if a.isPrimary = true ∧ (actState env st a).location = st.destination then
    { agent := actState env st a
      reward := actReward env st a
      violation := actViolation env st a
      done := true
      success := true
      trialSuccess := if st.deadline ≥ 0 then true else env.trialSuccess }
  else
    { agent := actState env st a
      reward := actReward env st a
      violation := actViolation env st a
      done := env.done
      success := env.success
      trialSuccess := env.trialSuccess }

/-- Environment.act with its two entry asserts (lines 103-104) and the body
of lines 106-231; the record of the missing sense method is taken from the
arguments. -/
def act (env : Env) (st : AgentState) (a : ActArgs) : Except PyError ActOutcome :=
  if a.registered = false then .error .unknownAgent
  else if validAction a.action = false then .error .invalidAction
  else .ok (actOk env st a)

/-- The names of the methods the Environment class defines in the source
(lines 25-231). -/
def environmentMethods : List String :=
  ["__init__", "create_agent", "set_primary_agent", "act"]

/-- Whether the Environment class defines a method of the given name. -/
def hasMethod (name : String) : Bool :=
  environmentMethods.contains name

/-- The dict subscript self.intersections[location] of line 109: a tuple
key returns the light state of that intersection, a list key raises a
TypeError because a Python list is unhashable. -/
def intersectionsLookup (env : Env) (k : LocKey) : Except PyError Bool :=
  match k with
  | .tuple c => .ok (env.lightState c)
  | .list _ => .error (.typeError "unhashable type: list")

/-- The location value create_agent stores for a newly registered agent at
line 87: list(random.choice(...)), a Python list of the chosen starting
coordinates. -/
def createAgentLocationKey (c : ℤ × ℤ) : LocKey :=
  .list c

/-- Environment.act as it executes: the two asserts, then the dict
subscript of line 109, which raises a TypeError when the stored location
value is a list, then the dynamic attribute lookup of self.sense at line
110, which fails with an AttributeError when the class defines no such
method; only past both would the body of actOk run. -/
def actMethodCall (env : Env) (st : AgentState) (a : ActArgs) : Except PyError ActOutcome :=
  if a.registered = false then .error .unknownAgent
  else if validAction a.action = false then .error .invalidAction
  else
    match intersectionsLookup env a.locationKey with
    | .error e => .error e
    | .ok _ =>
      if hasMethod "sense" = false then .error (.attributeError "sense")
      else .ok (actOk env st a)

/-- The fixed penalty table of the spec: violation kind 1 costs 5, kind 2
costs 10, kind 3 costs 20, kind 4 costs 40. -/
def fixedPenalty : ℕ → ℚ
  | 1 => -5
  | 2 => -10
  | 3 => -20
  | 4 => -40
  | _ => 0

/-- The violation field of the outcome is the classified violation. -/
theorem actOk_violation (env : Env) (st : AgentState) (a : ActArgs) :
    (actOk env st a).violation = actViolation env st a := by
  unfold actOk
  split <;> rfl

/-- The reward field of the outcome is the computed reward. -/
theorem actOk_reward (env : Env) (st : AgentState) (a : ActArgs) :
    (actOk env st a).reward = actReward env st a := by
  unfold actOk
  split <;> rfl

/-- The agent field of the outcome is the updated agent state. -/
theorem actOk_agent (env : Env) (st : AgentState) (a : ActArgs) :
    (actOk env st a).agent = actState env st a := by
  unfold actOk
  split <;> rfl

/-- For a nonzero violation kind the reward increment is the fixed penalty
of that kind. -/
theorem rewardDelta_ne_zero (v : ℕ) (hv : v ≠ 0) (a w : Option String) (l : String)
    (p : ℚ) : rewardDelta v a w l p = fixedPenalty v := by
  unfold rewardDelta fixedPenalty
  rcases v with _ | _ | _ | _ | _ | v <;> simp_all

/-- Adding the full extent to the low bound wraps to itself. -/
theorem emod_wrap_top (x0 x1 : ℤ) : (x1 + 1 - x0) % (x1 - x0 + 1) + x0 = x0 := by
  have h : x1 + 1 - x0 = x1 - x0 + 1 := by ring
  rw [h, Int.emod_self]
  ring

/-- Stepping below the low bound wraps to the high bound. -/
theorem emod_wrap_bot (x0 x1 : ℤ) (h : x0 ≤ x1) :
    (x0 - 1 - x0) % (x1 - x0 + 1) + x0 = x1 := by
  have hm : x0 - 1 - x0 = (x1 - x0) + (x1 - x0 + 1) * (-1) := by ring
  rw [hm, Int.add_mul_emod_self_left, Int.emod_eq_of_lt (by omega) (by omega)]
  ring

/-- A coordinate already within the bounds is fixed by the wrap. -/
theorem emod_wrap_id (x0 x1 x : ℤ) (h0 : x0 ≤ x) (h1 : x ≤ x1) :
    (x - x0) % (x1 - x0 + 1) + x0 = x := by
  rw [Int.emod_eq_of_lt (by omega) (by omega)]
  ring

/-- C7: for every tick sequence, a TrafficLight flips its phase on update(t)
exactly when t - last_updated has reached the period, flips at most once per
update call, records the tick when it flips, and reset sets last_updated
to 0. -/
theorem trafficLight_flip_iff (l : TrafficLight) (t : ℤ) :
    ((l.update t).state = !l.state ↔ t - l.last_updated ≥ l.period) ∧
    ((l.update t).state = !l.state ∨ (l.update t).state = l.state) ∧
    (t - l.last_updated ≥ l.period → (l.update t).last_updated = t) ∧
    l.reset.last_updated = 0 := by
  unfold TrafficLight.update TrafficLight.reset
  split
  · refine ⟨⟨fun _ => by assumption, fun _ => rfl⟩, Or.inl rfl, fun _ => rfl, rfl⟩
  · refine ⟨⟨fun h => ?_, fun h => absurd h (by assumption)⟩, Or.inr rfl, fun h => absurd h (by assumption), rfl⟩
    exact absurd h (by simp)

/-- C8: the light classification is green exactly when the signal phase
matches the heading axis: NS-open with a nonzero vertical heading component,
or EW-open with a nonzero horizontal component; otherwise it is red. -/
theorem lightAt_green_iff (s : Bool) (h : ℤ × ℤ) :
    (lightAt s h = "green" ↔ (s = true ∧ h.2 ≠ 0) ∨ (s = false ∧ h.1 ≠ 0)) ∧
    (lightAt s h = "green" ∨ lightAt s h = "red") := by
  unfold lightAt
  split
  · exact ⟨⟨fun _ => by assumption, fun _ => rfl⟩, Or.inl rfl⟩
  · refine ⟨⟨fun hg => ?_, fun hc => absurd hc (by assumption)⟩, Or.inr rfl⟩
    simp at hg

/-- Moving east from the east boundary wraps to the west boundary. -/
theorem wrapMove_east (b : Bounds) (y : ℤ) (h0 : b.y0 ≤ y) (h1 : y ≤ b.y1) :
    wrapMove b (b.x1, y) (1, 0) = (b.x0, y) := by
  unfold wrapMove
  rw [Prod.mk.injEq]
  constructor
  · exact emod_wrap_top b.x0 b.x1
  · show (y + 0 - b.y0) % (b.y1 - b.y0 + 1) + b.y0 = y
    have h : y + 0 - b.y0 = y - b.y0 := by ring
    rw [h]
    exact emod_wrap_id b.y0 b.y1 y h0 h1

/-- Moving west from the west boundary wraps to the east boundary. -/
theorem wrapMove_west (b : Bounds) (y : ℤ) (hx : b.x0 ≤ b.x1) (h0 : b.y0 ≤ y)
    (h1 : y ≤ b.y1) : wrapMove b (b.x0, y) (-1, 0) = (b.x1, y) := by
  unfold wrapMove
  rw [Prod.mk.injEq]
  constructor
  · show (b.x0 + -1 - b.x0) % (b.x1 - b.x0 + 1) + b.x0 = b.x1
    have h : b.x0 + -1 - b.x0 = b.x0 - 1 - b.x0 := by ring
    rw [h]
    exact emod_wrap_bot b.x0 b.x1 hx
  · show (y + 0 - b.y0) % (b.y1 - b.y0 + 1) + b.y0 = y
    have h : y + 0 - b.y0 = y - b.y0 := by ring
    rw [h]
    exact emod_wrap_id b.y0 b.y1 y h0 h1

/-- Moving south from the south boundary wraps to the north boundary. -/
theorem wrapMove_south (b : Bounds) (x : ℤ) (h0 : b.x0 ≤ x) (h1 : x ≤ b.x1) :
    wrapMove b (x, b.y1) (0, 1) = (x, b.y0) := by
  unfold wrapMove
  rw [Prod.mk.injEq]
  constructor
  · show (x + 0 - b.x0) % (b.x1 - b.x0 + 1) + b.x0 = x
    have h : x + 0 - b.x0 = x - b.x0 := by ring
    rw [h]
    exact emod_wrap_id b.x0 b.x1 x h0 h1
  · exact emod_wrap_top b.y0 b.y1

/-- Moving north from the north boundary wraps to the south boundary. -/
theorem wrapMove_north (b : Bounds) (x : ℤ) (hy : b.y0 ≤ b.y1) (h0 : b.x0 ≤ x)
    (h1 : x ≤ b.x1) : wrapMove b (x, b.y0) (0, -1) = (x, b.y1) := by
  unfold wrapMove
  rw [Prod.mk.injEq]
  constructor
  · show (x + 0 - b.x0) % (b.x1 - b.x0 + 1) + b.x0 = x
    have h : x + 0 - b.x0 = x - b.x0 := by ring
    rw [h]
    exact emod_wrap_id b.x0 b.x1 x h0 h1
  · show (b.y0 + -1 - b.y0) % (b.y1 - b.y0 + 1) + b.y0 = b.y1
    have h : b.y0 + -1 - b.y0 = b.y0 - 1 - b.y0 := by ring
    rw [h]
    exact emod_wrap_bot b.y0 b.y1 hy

/-- C1: on a registered agent with a valid action, the returned reward of a
violation-free call is the random base plus 2 minus the penalty on a
waypoint match, plus 2 minus the penalty when waiting at a non-green light,
and plus 1 minus the penalty otherwise; on a call with violation kind k
greater than 0 the returned reward is the random base plus the fixed
penalty of kind k. -/
theorem act_reward_decomposition (env : Env) (st : AgentState) (a : ActArgs)
    (hreg : a.registered = true) (hval : validAction a.action = true) :
    act env st a = .ok (actOk env st a) ∧
    ((actOk env st a).violation = 0 →
      (actOk env st a).reward = a.randBase +
        (if a.action = a.waypoint then 2 - a.penalty
         else if a.action = none ∧ actLight env st ≠ "green" then 2 - a.penalty
         else 1 - a.penalty)) ∧
    ((actOk env st a).violation ≠ 0 →
      (actOk env st a).reward =
        a.randBase + fixedPenalty ((actOk env st a).violation)) := by
  refine ⟨by simp [act, hreg, hval], ?_, ?_⟩
  · intro h0
    rw [actOk_violation] at h0
    rw [actOk_reward]
    unfold actReward
    rw [h0]
    simp [rewardDelta]
  · intro hne
    rw [actOk_violation] at hne
    rw [actOk_reward, actOk_violation]
    unfold actReward
    rw [rewardDelta_ne_zero _ hne]

/-- C2: a forward action at a red light is a major violation of kind 2,
escalated to kind 4 exactly when cross traffic is sensed as forward on the
left or the right; at a green light the violation is 0. -/
theorem act_forward_violation (env : Env) (st : AgentState) (a : ActArgs)
    (hact : a.action = some "forward") :
    (actLight env st = "red" →
      (actOk env st a).violation =
        if a.inputs.left = some "forward" ∨ a.inputs.right = some "forward" then 4
        else 2) ∧
    (actLight env st = "green" → (actOk env st a).violation = 0) := by
  constructor
  · intro hred
    rw [actOk_violation]
    unfold actViolation
    rw [hact, hred]
    by_cases h1 : a.inputs.left = some "forward" <;>
      by_cases h2 : a.inputs.right = some "forward" <;>
        simp [adjudicate, h1, h2]
  · intro hgreen
    rw [actOk_violation]
    unfold actViolation
    rw [hact, hgreen]
    simp [adjudicate]

/-- C3: a left action at a red light is a violation of kind 2, escalated to
kind 4 exactly when cross traffic is sensed as forward on the left or the
right or the oncoming agent is sensed turning right; at a green light an
oncoming agent sensed forward or right makes it kind 3, and otherwise the
turn is legal and the committed heading is the counter-clockwise rotation
of the previous one. -/
theorem act_left_violation (env : Env) (st : AgentState) (a : ActArgs)
    (hact : a.action = some "left") :
    (actLight env st = "red" →
      (actOk env st a).violation =
        if a.inputs.left = some "forward" ∨ a.inputs.right = some "forward" ∨
           a.inputs.oncoming = some "right" then 4
        else 2) ∧
    (actLight env st = "green" →
      ((a.inputs.oncoming = some "forward" ∨ a.inputs.oncoming = some "right" →
          (actOk env st a).violation = 3) ∧
       (¬(a.inputs.oncoming = some "forward" ∨ a.inputs.oncoming = some "right") →
          (actOk env st a).violation = 0 ∧
          (actOk env st a).agent.heading = (st.heading.2, -st.heading.1)))) := by
  constructor
  · intro hred
    rw [actOk_violation]
    unfold actViolation
    rw [hact, hred]
    by_cases h1 : a.inputs.left = some "forward" <;>
      by_cases h2 : a.inputs.right = some "forward" <;>
        by_cases h3 : a.inputs.oncoming = some "right" <;>
          simp [adjudicate, h1, h2, h3]
  · intro hgreen
    constructor
    · intro ho
      rw [actOk_violation]
      unfold actViolation
      rw [hact, hgreen]
      rcases ho with h | h <;> simp [adjudicate, h]
    · intro hno
      have h3 : a.inputs.oncoming ≠ some "forward" := fun h => hno (Or.inl h)
      have h4 : a.inputs.oncoming ≠ some "right" := fun h => hno (Or.inr h)
      have hv0 : actViolation env st a = 0 := by
        unfold actViolation
        rw [hact, hgreen]
        simp [adjudicate, h3, h4]
      have hh : actHeading env st a = (st.heading.2, -st.heading.1) := by
        unfold actHeading
        rw [hact, hgreen]
        simp [adjudicate, h3, h4]
      refine ⟨by rw [actOk_violation]; exact hv0, ?_⟩
      rw [actOk_agent]
      unfold actState
      rw [if_pos ⟨hv0, by simp [hact]⟩]
      simp [hh]

/-- C4: a call whose classified violation is nonzero leaves the stored
location and heading unchanged, and the reward is the random base plus the
fixed penalty of the violation kind. -/
theorem act_violation_no_move (env : Env) (st : AgentState) (a : ActArgs)
    (hv : (actOk env st a).violation ≠ 0) :
    (actOk env st a).agent.location = st.location ∧
    (actOk env st a).agent.heading = st.heading ∧
    (actOk env st a).reward =
      a.randBase + fixedPenalty ((actOk env st a).violation) := by
  rw [actOk_violation] at hv
  have hstate : actState env st a = st := by
    unfold actState
    rw [if_neg]
    intro h
    exact hv h.1
  refine ⟨by rw [actOk_agent, hstate], by rw [actOk_agent, hstate], ?_⟩
  rw [actOk_reward, actOk_violation]
  unfold actReward
  rw [rewardDelta_ne_zero _ hv]

/-- C5: on a legal non-None action the new stored location is the old one
plus the committed heading, wrapped modulo the grid extent of each axis
back into the bounds; on the environment bounds, moving past any of the four
boundaries wraps to the opposite boundary at the same row or column. -/
theorem act_move_wraparound (env : Env) (st : AgentState) (a : ActArgs)
    (hv : (actOk env st a).violation = 0) (hne : a.action ≠ none) :
    (actOk env st a).agent.location =
      wrapMove env.bounds st.location ((actOk env st a).agent.heading) ∧
    (∀ y : ℤ, env.bounds.x0 ≤ env.bounds.x1 → env.bounds.y0 ≤ y → y ≤ env.bounds.y1 →
      wrapMove env.bounds (env.bounds.x1, y) (1, 0) = (env.bounds.x0, y) ∧
      wrapMove env.bounds (env.bounds.x0, y) (-1, 0) = (env.bounds.x1, y)) ∧
    (∀ x : ℤ, env.bounds.y0 ≤ env.bounds.y1 → env.bounds.x0 ≤ x → x ≤ env.bounds.x1 →
      wrapMove env.bounds (x, env.bounds.y1) (0, 1) = (x, env.bounds.y0) ∧
      wrapMove env.bounds (x, env.bounds.y0) (0, -1) = (x, env.bounds.y1)) := by
  rw [actOk_violation] at hv
  refine ⟨?_, ?_, ?_⟩
  · rw [actOk_agent]
    unfold actState
    rw [if_pos ⟨hv, hne⟩]
  · intro y hx h0 h1
    exact ⟨wrapMove_east env.bounds y h0 h1, wrapMove_west env.bounds y hx h0 h1⟩
  · intro x hy h0 h1
    exact ⟨wrapMove_south env.bounds x h0 h1, wrapMove_north env.bounds x hy h0 h1⟩

/-- C6: a call for an unregistered agent fails with the unknown-agent error
and a call for a registered agent with an action outside the valid set fails
with the invalid-action error, in both embeddings of Environment.act; an
error result carries no updated state, so nothing is mutated. -/
theorem act_error_handling (env : Env) (st : AgentState) (a : ActArgs) :
    (a.registered = false →
      act env st a = .error .unknownAgent ∧
      actMethodCall env st a = .error .unknownAgent) ∧
    (a.registered = true → validAction a.action = false →
      act env st a = .error .invalidAction ∧
      actMethodCall env st a = .error .invalidAction) := by
  constructor
  · intro h
    exact ⟨by simp [act, h], by simp [actMethodCall, h]⟩
  · intro h1 h2
    exact ⟨by simp [act, h1, h2], by simp [actMethodCall, h1, h2]⟩

/-- C9: when a call by the primary agent ends with the stored location equal
to the destination, the trial is marked done and successful, with no
condition on the sign of the remaining deadline. -/
theorem act_goal_success (env : Env) (st : AgentState) (a : ActArgs)
    (hp : a.isPrimary = true)
    (hloc : (actOk env st a).agent.location = st.destination) :
    (actOk env st a).done = true ∧ (actOk env st a).success = true := by
  rw [actOk_agent] at hloc
  unfold actOk
  rw [if_pos ⟨hp, hloc⟩]
  exact ⟨rfl, rfl⟩

/-- C10 (amended): create_agent stores every registered agent's location as
a Python list (line 87), so a call to Environment.act on a registered agent
with a valid action raises a TypeError at the self.intersections[location]
subscript of line 109 and returns no reward; the self.sense(agent) call of
line 110, whose target method the class does not define, is never reached,
and the entire adjudication, movement, and reward path after line 109 is
unreachable as written. -/
theorem act_line109_type_error (env : Env) (st : AgentState) (a : ActArgs)
    (hreg : a.registered = true) (hval : validAction a.action = true)
    (hkey : a.locationKey = createAgentLocationKey st.location) :
    actMethodCall env st a = .error (.typeError "unhashable type: list") ∧
    hasMethod "sense" = false := by
  refine ⟨?_, by decide⟩
  simp [actMethodCall, hreg, hval, hkey, createAgentLocationKey, intersectionsLookup]

/-- Concrete environment with every signal NS-open, on the default 8 by 6
grid. -/
def wEnvNS : Env :=
  { bounds := mkBounds (8, 6), lightState := fun _ => true,
    done := false, success := false, trialSuccess := false }

/-- Concrete environment with every signal EW-open, on the default 8 by 6
grid. -/
def wEnvEW : Env :=
  { bounds := mkBounds (8, 6), lightState := fun _ => false,
    done := false, success := false, trialSuccess := false }

/-- Concrete agent state heading south at an interior intersection. -/
def wState : AgentState :=
  { location := (3, 4), heading := (0, 1), deadline := 5, destination := (1, 2) }

/-- Concrete agent state at the east boundary heading east. -/
def wStateE : AgentState :=
  { location := (8, 4), heading := (1, 0), deadline := 5, destination := (1, 2) }

/-- Concrete primary-agent state heading east one step west of its
destination, with a negative deadline. -/
def wStateC9 : AgentState :=
  { location := (3, 4), heading := (1, 0), deadline := -3, destination := (4, 4) }

/-- An empty sensed-traffic record. -/
def noTraffic : SenseInputs := ⟨none, none, none⟩

/-- Registered non-primary call arguments with no traffic, zero random base
and penalty, and the list-valued stored location create_agent produces for
an agent at (3, 4). -/
def mkArgs (action waypoint : Option String) (inputs : SenseInputs) : ActArgs :=
  { registered := true, locationKey := LocKey.list (3, 4), action := action,
    inputs := inputs, waypoint := waypoint, isPrimary := false,
    randBase := 0, penalty := 0 }

def wArgsC1 : ActArgs := mkArgs (some "forward") (some "forward") noTraffic

def wArgsC2 : ActArgs := mkArgs (some "forward") none noTraffic

def wArgsC3 : ActArgs := mkArgs (some "left") none noTraffic

def wArgsC5 : ActArgs := mkArgs (some "forward") (some "forward") noTraffic

def wArgsC10 : ActArgs := mkArgs (some "right") none noTraffic

/-- Call arguments for an unregistered agent. -/
def wArgsBad1 : ActArgs :=
  { registered := false, locationKey := LocKey.list (3, 4),
    action := some "forward", inputs := noTraffic, waypoint := none,
    isPrimary := false, randBase := 0, penalty := 0 }

/-- Registered call arguments with an action outside the valid set. -/
def wArgsBad2 : ActArgs :=
  { registered := true, locationKey := LocKey.list (3, 4),
    action := some "up", inputs := noTraffic, waypoint := none,
    isPrimary := false, randBase := 0, penalty := 0 }

/-- Primary-agent call arguments driving forward. -/
def wArgsC9 : ActArgs :=
  { registered := true, locationKey := LocKey.list (3, 4),
    action := some "forward", inputs := noTraffic, waypoint := some "forward",
    isPrimary := true, randBase := 0, penalty := 0 }

/-- Witness for C1 at a green light with a waypoint match. -/
theorem act_reward_decomposition_witness :
    wArgsC1.registered = true ∧ validAction wArgsC1.action = true ∧
    (act wEnvNS wState wArgsC1 = .ok (actOk wEnvNS wState wArgsC1) ∧
     ((actOk wEnvNS wState wArgsC1).violation = 0 →
       (actOk wEnvNS wState wArgsC1).reward = wArgsC1.randBase +
         (if wArgsC1.action = wArgsC1.waypoint then 2 - wArgsC1.penalty
          else if wArgsC1.action = none ∧ actLight wEnvNS wState ≠ "green" then
            2 - wArgsC1.penalty
          else 1 - wArgsC1.penalty)) ∧
     ((actOk wEnvNS wState wArgsC1).violation ≠ 0 →
       (actOk wEnvNS wState wArgsC1).reward =
         wArgsC1.randBase + fixedPenalty ((actOk wEnvNS wState wArgsC1).violation))) :=
  ⟨rfl, by decide, act_reward_decomposition wEnvNS wState wArgsC1 rfl (by decide)⟩

/-- Witness for C2: forward at a red light with no traffic is kind 2 and at
a green light is kind 0. -/
theorem act_forward_violation_witness :
    (actOk wEnvEW wState wArgsC2).violation = 2 ∧
    (actOk wEnvNS wState wArgsC2).violation = 0 := by
  constructor
  · have h := (act_forward_violation wEnvEW wState wArgsC2 rfl).1 (by decide)
    simpa [wArgsC2, mkArgs, noTraffic] using h
  · exact (act_forward_violation wEnvNS wState wArgsC2 rfl).2 (by decide)

/-- Witness for C3: left at a red light with no traffic is kind 2, and at a
green light with no traffic it is legal and rotates the south heading to
east. -/
theorem act_left_violation_witness :
    (actOk wEnvEW wState wArgsC3).violation = 2 ∧
    (actOk wEnvNS wState wArgsC3).violation = 0 ∧
    (actOk wEnvNS wState wArgsC3).agent.heading = (1, 0) := by
  have h1 := (act_left_violation wEnvEW wState wArgsC3 rfl).1 (by decide)
  have h2 := ((act_left_violation wEnvNS wState wArgsC3 rfl).2 (by decide)).2 (by decide)
  refine ⟨by simpa [wArgsC3, mkArgs, noTraffic] using h1, h2.1, ?_⟩
  rw [h2.2]
  rfl

/-- Witness for C4: forward through a red light is penalized and the agent
stays in place. -/
theorem act_violation_no_move_witness :
    (actOk wEnvEW wState wArgsC2).violation ≠ 0 ∧
    ((actOk wEnvEW wState wArgsC2).agent.location = wState.location ∧
     (actOk wEnvEW wState wArgsC2).agent.heading = wState.heading ∧
     (actOk wEnvEW wState wArgsC2).reward =
       wArgsC2.randBase + fixedPenalty ((actOk wEnvEW wState wArgsC2).violation)) :=
  ⟨by decide, act_violation_no_move wEnvEW wState wArgsC2 (by decide)⟩

/-- Witness for C5: a legal forward move from the east boundary wraps to
the west boundary of the same row. -/
theorem act_move_wraparound_witness :
    (actOk wEnvEW wStateE wArgsC5).violation = 0 ∧
    wArgsC5.action ≠ none ∧
    (actOk wEnvEW wStateE wArgsC5).agent.location =
      wrapMove wEnvEW.bounds wStateE.location ((actOk wEnvEW wStateE wArgsC5).agent.heading) ∧
    (actOk wEnvEW wStateE wArgsC5).agent.location = (1, 4) ∧
    wrapMove wEnvEW.bounds (8, 4) (1, 0) = (1, 4) :=
  ⟨by decide, by decide,
   (act_move_wraparound wEnvEW wStateE wArgsC5 (by decide) (by decide)).1,
   by decide, by decide⟩

/-- Witness for C6: an unregistered agent and an invalid action each fail
with the matching error in both embeddings. -/
theorem act_error_handling_witness :
    (act wEnvNS wState wArgsBad1 = .error .unknownAgent ∧
     actMethodCall wEnvNS wState wArgsBad1 = .error .unknownAgent) ∧
    (act wEnvNS wState wArgsBad2 = .error .invalidAction ∧
     actMethodCall wEnvNS wState wArgsBad2 = .error .invalidAction) :=
  ⟨(act_error_handling wEnvNS wState wArgsBad1).1 rfl,
   (act_error_handling wEnvNS wState wArgsBad2).2 rfl (by decide)⟩

/-- Witness for C7 on a concrete light and tick. -/
def wLight : TrafficLight := ⟨true, 3, 0⟩

theorem trafficLight_flip_iff_witness :
    ((wLight.update 3).state = !wLight.state ↔ 3 - wLight.last_updated ≥ wLight.period) ∧
    ((wLight.update 3).state = !wLight.state ∨ (wLight.update 3).state = wLight.state) ∧
    (3 - wLight.last_updated ≥ wLight.period → (wLight.update 3).last_updated = 3) ∧
    wLight.reset.last_updated = 0 :=
  trafficLight_flip_iff wLight 3

/-- Witness for C8 on a concrete phase and heading. -/
theorem lightAt_green_iff_witness :
    (lightAt true ((0 : ℤ), (1 : ℤ)) = "green" ↔
      (true = true ∧ ((0 : ℤ), (1 : ℤ)).2 ≠ 0) ∨
      (true = false ∧ ((0 : ℤ), (1 : ℤ)).1 ≠ 0)) ∧
    (lightAt true ((0 : ℤ), (1 : ℤ)) = "green" ∨
     lightAt true ((0 : ℤ), (1 : ℤ)) = "red") :=
  lightAt_green_iff true ((0 : ℤ), (1 : ℤ))

/-- Witness for C9: the primary agent reaches its destination with a
negative deadline and the trial is still marked done and successful. -/
theorem act_goal_success_witness :
    wArgsC9.isPrimary = true ∧ wStateC9.deadline < 0 ∧
    (actOk wEnvEW wStateC9 wArgsC9).agent.location = wStateC9.destination ∧
    ((actOk wEnvEW wStateC9 wArgsC9).done = true ∧
     (actOk wEnvEW wStateC9 wArgsC9).success = true) :=
  ⟨rfl, by decide, by decide, act_goal_success wEnvEW wStateC9 wArgsC9 rfl (by decide)⟩

/-- Counterexample for C10 as stated: a concrete call on a registered agent
with a valid action and the list-valued stored location that create_agent
produces does not fail with an AttributeError at the sense lookup; it fails
earlier, with a TypeError at the dict subscript of line 109. -/
theorem act_attribute_error_counterexample :
    wArgsC10.registered = true ∧ validAction wArgsC10.action = true ∧
    wArgsC10.locationKey = createAgentLocationKey wState.location ∧
    actMethodCall wEnvNS wState wArgsC10 =
      .error (.typeError "unhashable type: list") ∧
    actMethodCall wEnvNS wState wArgsC10 ≠ .error (.attributeError "sense") := by
  refine ⟨rfl, by decide, rfl, rfl, fun h => ?_⟩
  exact PyError.noConfusion (Except.error.inj h)

/-- Witness for the amended C10: a registered right-turn call with the
stored list location fails with the line-109 TypeError, and the class still
defines no sense method. -/
theorem act_line109_type_error_witness :
    actMethodCall wEnvNS wState wArgsC10 =
      .error (.typeError "unhashable type: list") ∧
    hasMethod "sense" = false :=
  act_line109_type_error wEnvNS wState wArgsC10 rfl (by decide) rfl
